import Mathlib

/-!
# Verification of the sqlite-gui database layer

Shallow embedding of the database abstraction layer of the `sqlite-gui`
repository: the SQL dialect builders, the SQLite and PostgreSQL backend
adapters (`pkg/database/sqlite/sqlite.go`, `pkg/database/database.go`) and
the connection registry (`internal/app/connections.go`).

Conventions of the embedding:

* Go `map[string]any` values (rows, keys) are association lists
  `List (String × Value)`; Go's `sort.Strings` over the map's keys is
  `List.insertionSort (· ≤ ·)` over the key list (UTF-8 byte order and
  code-point order agree, so the Lean `String` order is faithful).
* Adapter methods return `Except DbError α`: an `.error` result means the
  method returned before reaching the driver (no statement executed), an
  `.ok` result carries the driver request(s) the method issues — the SQL
  text and the positional argument list, exactly as built by the Go code.
* The `*sql.DB` handle is modelled by its only observable in this layer:
  whether it is `nil` (a `connected : Bool` flag). `ensureConnected`
  returning `database.ErrNotConnected` is `DbError.notConnected`.
* Go's validation failures (`fmt.Errorf` on empty input etc.) are
  `DbError.validation msg` with the original format string instantiated.
* `strings.TrimSpace(x) == ""` is modelled by `isBlank x` (all characters
  whitespace), which is equivalent to the trimmed string being empty.
-/

/-- Dynamically-typed scalar carried in rows, keys and statement arguments. -/
inductive Value where
  | null : Value
  | int : Int → Value
  | str : String → Value
  | bool : Bool → Value
  deriving DecidableEq, Repr

/-- Error taxonomy of the adapter layer (spec §7): `notConnected` is
`database.ErrNotConnected`; `validation` is a `fmt.Errorf` rejecting
malformed caller input before any driver call. -/
inductive DbError where
  | notConnected : DbError
  | validation : String → DbError
  deriving DecidableEq, Repr

/-- A row / key payload: association list from column name to value
(the embedding of Go's `map[string]any` with distinct keys). -/
abbrev RowL := List (String × Value)

/-- `quoteIdent` (identical in both dialects): escape embedded `\x22` by
doubling it, then wrap the identifier in double quotes. -/
def escapeQuotes : List Char → List Char
  | [] => []
  | c :: cs => if c = '"' then c :: c :: escapeQuotes cs else c :: escapeQuotes cs

/-- Embedding of `quoteIdent` from `sqlite.go` / `database.go`. -/
def quoteIdent (name : String) : String :=
  "\"" ++ String.mk (escapeQuotes name.data) ++ "\""

/-- Embedding of the condition `strings.TrimSpace(s) == ""`. -/
def isBlank (s : String) : Bool := s.data.all Char.isWhitespace

/-- Embedding of `orderedKeys`: collect the map's keys and `sort.Strings`
them (lexicographic order). -/
def orderedKeys (m : RowL) : List String :=
  List.insertionSort (· ≤ ·) (m.map Prod.fst)

/-- Map-read `m[k]` for a key known to be in the map (`null` outside). -/
def rowGet (m : RowL) (k : String) : Value :=
  match m.lookup k with
  | some v => v
  | none => Value.null

theorem strAppend_assoc (a b c : String) : a ++ b ++ c = a ++ (b ++ c) := by
  rcases a with ⟨as⟩; rcases b with ⟨bs⟩; rcases c with ⟨cs⟩
  show String.append (String.append ⟨as⟩ ⟨bs⟩) ⟨cs⟩ = String.append ⟨as⟩ (String.append ⟨bs⟩ ⟨cs⟩)
  simp [String.append, List.append_assoc]

theorem strAppend_left_cancel {x y : String} (s : String) (h : x = y) :
    s ++ x = s ++ y := by rw [h]

theorem orderedKeys_sorted (m : RowL) :
    List.Sorted (· ≤ ·) (orderedKeys m) :=
  List.sorted_insertionSort _ _

theorem orderedKeys_perm (m : RowL) :
    (orderedKeys m).Perm (m.map Prod.fst) :=
  List.perm_insertionSort _ _

/-! ## ListRows query builders (`SQLite.Rows`, `Postgres.Rows`) -/

/-- Query text and arguments built by `SQLite.Rows` (sqlite.go:125-143):
`SELECT * FROM t`, then ` LIMIT ?` when `limit > 0`; when `offset > 0`,
first ` LIMIT -1` if no limit was emitted, then ` OFFSET ?`. -/
def sqliteRowsQuery (table : String) (limit offset : Int) : String × List Value :=
  let q0 := "SELECT * FROM " ++ quoteIdent table
  let (q1, a1) :=
    if 0 < limit then (q0 ++ " LIMIT ?", [Value.int limit]) else (q0, [])
  if 0 < offset then
    let q2 := if limit ≤ 0 then q1 ++ " LIMIT -1" else q1
    (q2 ++ " OFFSET ?", a1 ++ [Value.int offset])
  else (q1, a1)

/-- Query text and arguments built by `Postgres.Rows` (database.go:304-321):
`SELECT * FROM t`, then ` LIMIT $n` when `limit > 0` and ` OFFSET $n` when
`offset > 0`, with `$n` numbered by the running argument count. -/
def pgRowsQuery (table : String) (limit offset : Int) : String × List Value :=
  let q0 := "SELECT * FROM " ++ quoteIdent table
  let (q1, a1) :=
    if 0 < limit then
      (q0 ++ " LIMIT $" ++ toString (1 : Nat), [Value.int limit])
    else (q0, [])
  if 0 < offset then
    (q1 ++ " OFFSET $" ++ toString (a1.length + 1), a1 ++ [Value.int offset])
  else (q1, a1)

/-- C3: for every table, limit and offset, the generated row queries are:
no LIMIT/OFFSET clause when both are non-positive; SQLite emits
`LIMIT -1 OFFSET ?` and PostgreSQL a bare `OFFSET $1` when only the offset
is positive; a positive limit is carried in the LIMIT clause, followed by
the OFFSET clause when the offset is positive. -/
theorem listRows_limit_offset_clauses (table : String) (limit offset : Int) :
    (limit ≤ 0 → offset ≤ 0 →
      sqliteRowsQuery table limit offset = ("SELECT * FROM " ++ quoteIdent table, []) ∧
      pgRowsQuery table limit offset = ("SELECT * FROM " ++ quoteIdent table, [])) ∧
    (limit ≤ 0 → 0 < offset →
      sqliteRowsQuery table limit offset =
        ("SELECT * FROM " ++ quoteIdent table ++ " LIMIT -1 OFFSET ?",
          [Value.int offset]) ∧
      pgRowsQuery table limit offset =
        ("SELECT * FROM " ++ quoteIdent table ++ " OFFSET $1", [Value.int offset])) ∧
    (0 < limit → offset ≤ 0 →
      sqliteRowsQuery table limit offset =
        ("SELECT * FROM " ++ quoteIdent table ++ " LIMIT ?", [Value.int limit]) ∧
      pgRowsQuery table limit offset =
        ("SELECT * FROM " ++ quoteIdent table ++ " LIMIT $1", [Value.int limit])) ∧
    (0 < limit → 0 < offset →
      sqliteRowsQuery table limit offset =
        ("SELECT * FROM " ++ quoteIdent table ++ " LIMIT ? OFFSET ?",
          [Value.int limit, Value.int offset]) ∧
      pgRowsQuery table limit offset =
        ("SELECT * FROM " ++ quoteIdent table ++ " LIMIT $1 OFFSET $2",
          [Value.int limit, Value.int offset])) := by
  refine ⟨fun h1 h2 => ?_, fun h1 h2 => ?_, fun h1 h2 => ?_, fun h1 h2 => ?_⟩
  · simp [sqliteRowsQuery, pgRowsQuery, not_lt.mpr h1, not_lt.mpr h2]
  · simp only [sqliteRowsQuery, pgRowsQuery, if_neg (not_lt.mpr h1), if_pos h1,
      if_pos h2, List.length_nil, List.nil_append, Nat.reduceAdd]
    constructor <;>
      · first
          | trivial
          | (rw [Prod.mk.injEq]
             refine ⟨?_, by simp⟩
             apply String.ext
             simp only [String.data_append, List.append_assoc]
             first
               | rfl
               | (apply congrArg; apply congrArg; decide)
               | (apply congrArg; decide)
               | decide)
  · simp only [sqliteRowsQuery, pgRowsQuery, if_pos h1, if_neg (not_le.mpr h1),
      if_neg (not_lt.mpr h2), List.length_cons, List.length_nil, Nat.reduceAdd]
    constructor <;>
      · first
          | trivial
          | (rw [Prod.mk.injEq]
             refine ⟨?_, by simp⟩
             apply String.ext
             simp only [String.data_append, List.append_assoc]
             first
               | rfl
               | (apply congrArg; apply congrArg; decide)
               | (apply congrArg; decide)
               | decide)
  · simp only [sqliteRowsQuery, pgRowsQuery, if_pos h1, if_neg (not_le.mpr h1),
      if_pos h2, List.length_cons, List.length_nil, Nat.reduceAdd]
    constructor <;>
      · first
          | trivial
          | (rw [Prod.mk.injEq]
             refine ⟨?_, by simp⟩
             apply String.ext
             simp only [String.data_append, List.append_assoc]
             first
               | rfl
               | (apply congrArg; apply congrArg; decide)
               | (apply congrArg; decide)
               | decide)

/-- Witness for C3 at `table = "t"`, `limit = 0`, `offset = 3`. -/
theorem listRows_limit_offset_clauses_witness :
    (0 : Int) ≤ 0 ∧ (0 : Int) < 3 ∧
    (sqliteRowsQuery "t" 0 3 =
        ("SELECT * FROM " ++ quoteIdent "t" ++ " LIMIT -1 OFFSET ?", [Value.int 3]) ∧
      pgRowsQuery "t" 0 3 =
        ("SELECT * FROM " ++ quoteIdent "t" ++ " OFFSET $1", [Value.int 3])) :=
  ⟨by decide, by decide,
    (listRows_limit_offset_clauses "t" 0 3).2.1 (by decide) (by decide)⟩

/-! ## InsertRow statement builders (`SQLite.Insert`, `Postgres.Insert`) -/

/-- Embedding of `SQLite.Insert` (sqlite.go:145-164): reject an empty row,
otherwise build `INSERT INTO t (cols...) VALUES (?...)` with the columns in
`orderedKeys` order and the argument values in the same order. -/
def sqliteInsert (connected : Bool) (table : String) (data : RowL) :
    Except DbError (String × List Value) :=
  if connected then
    if data.isEmpty then .error (.validation ("no data to insert into " ++ table))
    else
      let keys := orderedKeys data
      .ok ("INSERT INTO " ++ quoteIdent table ++ " (" ++
            String.intercalate ", " (keys.map quoteIdent) ++ ") VALUES (" ++
            String.intercalate ", " (keys.map fun _ => "?") ++ ")",
          keys.map (rowGet data))
  else .error .notConnected

/-- Embedding of `Postgres.Insert` (database.go:323-342): as for SQLite but
with `$1..$n` placeholders. -/
def pgInsert (connected : Bool) (table : String) (data : RowL) :
    Except DbError (String × List Value) :=
  if connected then
    if data.isEmpty then .error (.validation ("no data to insert into " ++ table))
    else
      let keys := orderedKeys data
      .ok ("INSERT INTO " ++ quoteIdent table ++ " (" ++
            String.intercalate ", " (keys.map quoteIdent) ++ ") VALUES (" ++
            String.intercalate ", " ((List.range keys.length).map
              fun i => "$" ++ toString (i + 1)) ++ ")",
          keys.map (rowGet data))
  else .error .notConnected

/-- C5: on an empty row both Insert methods fail with a validation error;
on a non-empty row both emit an INSERT whose column list is the
lexicographically sorted sequence of the row's keys (a sorted permutation
of them), with the argument values listed in the same sorted order. -/
theorem insertRow_sorted_columns (table : String) (row : RowL) :
    (row = [] →
      sqliteInsert true table row =
        .error (.validation ("no data to insert into " ++ table)) ∧
      pgInsert true table row =
        .error (.validation ("no data to insert into " ++ table))) ∧
    (row ≠ [] →
      List.Sorted (· ≤ ·) (orderedKeys row) ∧
      (orderedKeys row).Perm (row.map Prod.fst) ∧
      sqliteInsert true table row =
        .ok ("INSERT INTO " ++ quoteIdent table ++ " (" ++
              String.intercalate ", " ((orderedKeys row).map quoteIdent) ++
              ") VALUES (" ++
              String.intercalate ", " ((orderedKeys row).map fun _ => "?") ++ ")",
            (orderedKeys row).map (rowGet row)) ∧
      pgInsert true table row =
        .ok ("INSERT INTO " ++ quoteIdent table ++ " (" ++
              String.intercalate ", " ((orderedKeys row).map quoteIdent) ++
              ") VALUES (" ++
              String.intercalate ", " ((List.range (orderedKeys row).length).map
                fun i => "$" ++ toString (i + 1)) ++ ")",
            (orderedKeys row).map (rowGet row))) := by
  constructor
  · intro h
    subst h
    constructor <;> rfl
  · intro h
    refine ⟨orderedKeys_sorted row, orderedKeys_perm row, ?_, ?_⟩ <;>
      simp [sqliteInsert, pgInsert, List.isEmpty_iff, h]

/-- Witness for C5 on the two-column row `{b: 2, a: 1}`. -/
theorem insertRow_sorted_columns_witness :
    ([("b", Value.int 2), ("a", Value.int 1)] : RowL) ≠ [] ∧
    (List.Sorted (· ≤ ·) (orderedKeys [("b", Value.int 2), ("a", Value.int 1)]) ∧
      (orderedKeys [("b", Value.int 2), ("a", Value.int 1)]).Perm
        (([("b", Value.int 2), ("a", Value.int 1)] : RowL).map Prod.fst) ∧
      sqliteInsert true "t" [("b", Value.int 2), ("a", Value.int 1)] =
        .ok ("INSERT INTO " ++ quoteIdent "t" ++ " (" ++
              String.intercalate ", "
                ((orderedKeys [("b", Value.int 2), ("a", Value.int 1)]).map quoteIdent) ++
              ") VALUES (" ++
              String.intercalate ", "
                ((orderedKeys [("b", Value.int 2), ("a", Value.int 1)]).map fun _ => "?") ++
              ")",
            (orderedKeys [("b", Value.int 2), ("a", Value.int 1)]).map
              (rowGet [("b", Value.int 2), ("a", Value.int 1)])) ∧
      pgInsert true "t" [("b", Value.int 2), ("a", Value.int 1)] =
        .ok ("INSERT INTO " ++ quoteIdent "t" ++ " (" ++
              String.intercalate ", "
                ((orderedKeys [("b", Value.int 2), ("a", Value.int 1)]).map quoteIdent) ++
              ") VALUES (" ++
              String.intercalate ", "
                ((List.range (orderedKeys [("b", Value.int 2), ("a", Value.int 1)]).length).map
                  fun i => "$" ++ toString (i + 1)) ++ ")",
            (orderedKeys [("b", Value.int 2), ("a", Value.int 1)]).map
              (rowGet [("b", Value.int 2), ("a", Value.int 1)]))) :=
  ⟨by decide,
    (insertRow_sorted_columns "t" [("b", Value.int 2), ("a", Value.int 1)]).2 (by decide)⟩

/-! ## Update / Delete (`SQLite.Update/Delete`, `Postgres.Update/Delete`) -/

/-- Embedding of `buildWhere` (database.go:444-456): reject an empty key,
otherwise AND together `col = $n` clauses with columns in `orderedKeys`
order, numbering the placeholders from `startParamIndex`. -/
def buildWhere (key : RowL) (startParamIndex : Nat) :
    Except DbError (String × List Value) :=
  if key.isEmpty then .error (.validation "where key is empty")
  else
    let cols := orderedKeys key
    .ok (String.intercalate " AND "
          (cols.enum.map fun p =>
            quoteIdent p.2 ++ " = $" ++ toString (startParamIndex + p.1)),
        cols.map (rowGet key))

/-- Embedding of `Postgres.Delete` (database.go:375-389): reject an empty
key with a validation error before any driver call, otherwise execute
`DELETE FROM t WHERE ...` with the `buildWhere` clause. -/
def pgDelete (connected : Bool) (table : String) (key : RowL) :
    Except DbError (String × List Value) :=
  if connected then
    if key.isEmpty then .error (.validation ("no primary key provided for " ++ table))
    else
      match buildWhere key 1 with
      | .error e => .error e
      | .ok wa => .ok ("DELETE FROM " ++ quoteIdent table ++ " WHERE " ++ wa.1, wa.2)
  else .error .notConnected

/-- Embedding of `SQLite.Delete` (sqlite.go:186-193): the single-pair form
`Delete(ctx, table, pkColumn, pkValue)`; it performs no validation and
always executes `DELETE FROM t WHERE pkColumn = ?`. -/
def sqliteDelete (connected : Bool) (table pkColumn : String) (pkValue : Value) :
    Except DbError (String × List Value) :=
  if connected then
    .ok ("DELETE FROM " ++ quoteIdent table ++ " WHERE " ++ quoteIdent pkColumn ++ " = ?",
        [pkValue])
  else .error .notConnected

/-- Embedding of `Postgres.Update` (database.go:344-373): reject an empty
key or empty row, otherwise `UPDATE t SET ... WHERE ...` with sorted SET
columns and the `buildWhere` clause numbered after the SET arguments. -/
def pgUpdate (connected : Bool) (table : String) (key data : RowL) :
    Except DbError (String × List Value) :=
  if connected then
    if key.isEmpty then .error (.validation ("no primary key provided for " ++ table))
    else if data.isEmpty then .error (.validation ("no data to update for " ++ table))
    else
      let keys := orderedKeys data
      let setClauses := keys.enum.map fun p => quoteIdent p.2 ++ " = $" ++ toString (p.1 + 1)
      match buildWhere key (keys.length + 1) with
      | .error e => .error e
      | .ok wa =>
          .ok ("UPDATE " ++ quoteIdent table ++ " SET " ++
                String.intercalate ", " setClauses ++ " WHERE " ++ wa.1,
              keys.map (rowGet data) ++ wa.2)
  else .error .notConnected

/-- Embedding of `SQLite.Update` (sqlite.go:166-184): the single-pair form;
it rejects an empty row but accepts any `pkColumn`, appending the pk value
as the last argument. -/
def sqliteUpdate (connected : Bool) (table pkColumn : String) (pkValue : Value)
    (data : RowL) : Except DbError (String × List Value) :=
  if connected then
    if data.isEmpty then .error (.validation ("no data to update for " ++ table))
    else
      let keys := orderedKeys data
      .ok ("UPDATE " ++ quoteIdent table ++ " SET " ++
            String.intercalate ", " (keys.map fun k => quoteIdent k ++ " = ?") ++
            " WHERE " ++ quoteIdent pkColumn ++ " = ?",
          keys.map (rowGet data) ++ [pkValue])
  else .error .notConnected

/-- C2 counterexample: the SQLite adapter's Delete cannot fail on an empty
key — it has no key map at all, and with an empty `pkColumn` it still
executes a DELETE statement instead of returning a validation error. -/
theorem deleteRow_empty_key_counterexample :
    sqliteDelete true "users" "" Value.null =
      .ok ("DELETE FROM \"users\" WHERE \"\" = ?", [Value.null]) := by
  rfl

/-- C2 amended: `Postgres.Delete` fails with a validation error on an empty
key, executing no statement; `SQLite.Delete` instead takes a single
`(pkColumn, pkValue)` pair, performs no validation, and always executes the
DELETE statement while connected. -/
theorem deleteRow_empty_key_validation (table pkColumn : String) (v : Value)
    (key : RowL) :
    (key = [] →
      pgDelete true table key =
        .error (.validation ("no primary key provided for " ++ table))) ∧
    sqliteDelete true table pkColumn v =
      .ok ("DELETE FROM " ++ quoteIdent table ++ " WHERE " ++
            quoteIdent pkColumn ++ " = ?", [v]) := by
  constructor
  · intro h
    subst h
    rfl
  · rfl

/-- Witness for C2 (amended) at an empty key on table `users`. -/
theorem deleteRow_empty_key_validation_witness :
    ([] : RowL) = [] ∧
    (pgDelete true "users" [] =
        .error (.validation ("no primary key provided for " ++ "users")) ∧
      sqliteDelete true "users" "id" Value.null =
        .ok ("DELETE FROM " ++ quoteIdent "users" ++ " WHERE " ++
              quoteIdent "id" ++ " = ?", [Value.null])) :=
  ⟨rfl, ⟨(deleteRow_empty_key_validation "users" "id" Value.null []).1 rfl,
    (deleteRow_empty_key_validation "users" "id" Value.null []).2⟩⟩

/-! ## ListColumns (`SQLite.Columns`, `Postgres.Columns`) -/

/-- Embedding of `database.ForeignKey`; the actions are kept as the raw
strings scanned from the engine metadata. -/
structure ForeignKey where
  refTable : String
  fromCol : String
  toCol : String
  onDelete : String
  onUpdate : String
  deriving DecidableEq, Repr

/-- Embedding of `database.Column` as used by `Postgres.Columns`
(database.go:231-239): `PrimaryKeyIndex` is the 1-based ordinal within the
primary key, 0 when the column is not part of it. -/
structure Column where
  name : String
  type : String
  notNull : Bool
  default : Option String
  primaryKey : Bool
  primaryKeyIndex : Nat
  foreignKeys : List ForeignKey
  deriving DecidableEq, Repr

/-- One row of SQLite's `PRAGMA table_info` result as scanned in
sqlite.go:96-107: `pk` is the 1-based position of the column inside the
primary key (0 when not part of it). -/
structure TableInfoRow where
  cid : Nat
  name : String
  type : String
  notNull : Nat
  dflt : Option String
  pk : Nat
  deriving DecidableEq, Repr

/-- Embedding of the result assembly of `SQLite.Columns`
(sqlite.go:95-122): each `table_info` row becomes a `Column` with
`PrimaryKey := (pk == 1)` and the foreign keys looked up by column name.
The struct literal in the source sets no `PrimaryKeyIndex` field, so it
carries Go's zero value 0. -/
def sqliteColumns (fkMap : List (String × List ForeignKey))
    (infos : List TableInfoRow) : List Column :=
  infos.map fun r =>
    { name := r.name
      type := r.type
      notNull := r.notNull == 1
      default := r.dflt
      primaryKey := r.pk == 1
      primaryKeyIndex := 0
      foreignKeys :=
        match fkMap.lookup r.name with
        | some fks => fks
        | none => [] }

/-- One row of the `information_schema.columns` query scanned in
`Postgres.Columns` (database.go:223-227). -/
structure PgColRow where
  name : String
  dataType : String
  isNullable : String
  default : Option String
  deriving DecidableEq, Repr

/-- Embedding of the result assembly of `Postgres.Columns`
(database.go:222-240): `pks` is the primary-key metadata map
(column name to `ordinal_position`), `fks` the foreign-key map; a column
absent from `pks` gets the zero value 0 and `PrimaryKey := false`. -/
def pgColumns (pks : List (String × Nat)) (fks : List (String × List ForeignKey))
    (cols : List PgColRow) : List Column :=
  cols.map fun r =>
    { name := r.name
      type := r.dataType
      notNull := r.isNullable == "NO"
      default := r.default
      primaryKey := (pks.lookup r.name).isSome
      primaryKeyIndex := (pks.lookup r.name).getD 0
      foreignKeys := (fks.lookup r.name).getD [] }

theorem lookup_nil {β : Type} (k : String) :
    List.lookup k ([] : List (String × β)) = none := rfl

theorem lookup_cons_self {β : Type} (k : String) (v : β) (rest : List (String × β)) :
    List.lookup k ((k, v) :: rest) = some v := by
  simp [List.lookup]

theorem lookup_cons_ne {β : Type} {k k' : String} (h : k ≠ k') (v : β)
    (rest : List (String × β)) :
    List.lookup k ((k', v) :: rest) = List.lookup k rest := by
  simp [List.lookup, beq_eq_false_iff_ne.mpr h]

/-- C1 counterexample: for a composite primary key over `[a, b]` (SQLite's
`table_info` reports `pk = 1` and `pk = 2`), the SQLite adapter reports
`primaryKeyOrdinal` 0 for both columns — not 1 and 2 — and does not even
flag `b` as a primary-key column. -/
theorem listColumns_composite_pk_counterexample :
    (sqliteColumns []
        [⟨0, "a", "INTEGER", 1, none, 1⟩, ⟨1, "b", "INTEGER", 1, none, 2⟩]).map
        (fun c => (c.name, c.primaryKeyIndex, c.primaryKey)) =
      [("a", 0, true), ("b", 0, false)] ∧
    ¬ ((sqliteColumns []
        [⟨0, "a", "INTEGER", 1, none, 1⟩, ⟨1, "b", "INTEGER", 1, none, 2⟩]).map
        (fun c => c.primaryKeyIndex) = [1, 2]) := by
  constructor
  · rfl
  · intro h
    simp [sqliteColumns] at h

/-- C1 amended: the PostgreSQL adapter reports the claimed ordinals — for a
composite key over `[a, b]` with metadata positions 1 and 2 it reports 1
and 2 (and flags both as primary), for a single-column key it reports 1 for
that column and 0 (not primary) for every other — while the SQLite adapter
reports `primaryKeyOrdinal` 0 for every column and flags as primary exactly
the columns whose `table_info` `pk` field equals 1. -/
theorem listColumns_primary_key_ordinals (a b : String) (hab : a ≠ b)
    (fks : List (String × List ForeignKey)) (cols : List PgColRow)
    (fkm : List (String × List ForeignKey)) (infos : List TableInfoRow) :
    (∀ c ∈ pgColumns [(a, 1), (b, 2)] fks cols,
      (c.name = a → c.primaryKeyIndex = 1 ∧ c.primaryKey = true) ∧
      (c.name = b → c.primaryKeyIndex = 2 ∧ c.primaryKey = true) ∧
      (c.name ≠ a → c.name ≠ b → c.primaryKeyIndex = 0 ∧ c.primaryKey = false)) ∧
    (∀ p : String, ∀ c ∈ pgColumns [(p, 1)] fks cols,
      (c.name = p → c.primaryKeyIndex = 1 ∧ c.primaryKey = true) ∧
      (c.name ≠ p → c.primaryKeyIndex = 0 ∧ c.primaryKey = false)) ∧
    (sqliteColumns fkm infos).map (fun c => (c.primaryKeyIndex, c.primaryKey)) =
      infos.map (fun r => ((0 : Nat), r.pk == 1)) := by
  refine ⟨?_, ?_, ?_⟩
  · intro c hc
    obtain ⟨r, hr, rfl⟩ := List.mem_map.1 hc
    refine ⟨fun h => ?_, fun h => ?_, fun h h' => ?_⟩
    · have hn : r.name = a := h
      simp [hn, lookup_cons_self]
    · have hn : r.name = b := h
      simp [hn, lookup_cons_ne (Ne.symm hab), lookup_cons_self, Ne.symm hab]
    · have hn : r.name ≠ a := h
      have hn' : r.name ≠ b := h'
      simp [lookup_cons_ne hn, lookup_cons_ne hn', lookup_nil, hn, hn']
  · intro p c hc
    obtain ⟨r, hr, rfl⟩ := List.mem_map.1 hc
    refine ⟨fun h => ?_, fun h => ?_⟩
    · have hn : r.name = p := h
      simp [hn, lookup_cons_self]
    · have hn : r.name ≠ p := h
      simp [lookup_cons_ne hn, lookup_nil, hn]
  · simp only [sqliteColumns, List.map_map]
    rfl

/-- Witness for C1 (amended) on a concrete composite-key table. -/
theorem listColumns_primary_key_ordinals_witness :
    ("a" : String) ≠ "b" ∧
    ((∀ c ∈ pgColumns [("a", 1), ("b", 2)] []
        [⟨"a", "integer", "NO", none⟩, ⟨"b", "integer", "NO", none⟩,
          ⟨"c", "text", "YES", none⟩],
      (c.name = "a" → c.primaryKeyIndex = 1 ∧ c.primaryKey = true) ∧
      (c.name = "b" → c.primaryKeyIndex = 2 ∧ c.primaryKey = true) ∧
      (c.name ≠ "a" → c.name ≠ "b" → c.primaryKeyIndex = 0 ∧ c.primaryKey = false)) ∧
    (∀ p : String, ∀ c ∈ pgColumns [(p, 1)] []
        [⟨"a", "integer", "NO", none⟩, ⟨"b", "integer", "NO", none⟩,
          ⟨"c", "text", "YES", none⟩],
      (c.name = p → c.primaryKeyIndex = 1 ∧ c.primaryKey = true) ∧
      (c.name ≠ p → c.primaryKeyIndex = 0 ∧ c.primaryKey = false)) ∧
    (sqliteColumns [] [⟨0, "a", "INTEGER", 1, none, 1⟩]).map
        (fun c => (c.primaryKeyIndex, c.primaryKey)) =
      ([⟨0, "a", "INTEGER", 1, none, 1⟩] : List TableInfoRow).map
        (fun r => ((0 : Nat), r.pk == 1))) :=
  ⟨by decide,
    listColumns_primary_key_ordinals "a" "b" (by decide) []
      [⟨"a", "integer", "NO", none⟩, ⟨"b", "integer", "NO", none⟩,
        ⟨"c", "text", "YES", none⟩] [] [⟨0, "a", "INTEGER", 1, none, 1⟩]⟩

/-! ## CreateTable builders (`buildCreateTableSQL`, `buildColumnDefinition`) -/

/-- Embedding of `database.ColumnDef` (the DDL input). -/
structure ColumnDef where
  name : String
  type : String
  notNull : Bool
  default : Option String
  primaryKey : Bool
  deriving DecidableEq, Repr

/-- Embedding of `buildColumnDefinition` (database.go:494-509): reject a
blank name or type, otherwise join the identifier, type, `NOT NULL`,
`DEFAULT expr` and — only when the column is a primary key and inlining is
allowed — the `PRIMARY KEY` marker, with single spaces. -/
def buildColumnDefinition (col : ColumnDef) (allowInlinePK : Bool) :
    Except DbError String :=
  if isBlank col.name || isBlank col.type then
    .error (.validation "column name and type are required")
  else
    .ok (String.intercalate " "
      ([quoteIdent col.name, col.type] ++
        (if col.notNull then ["NOT NULL"] else []) ++
        (match col.default with
          | some d => ["DEFAULT " ++ d]
          | none => []) ++
        (if col.primaryKey && allowInlinePK then ["PRIMARY KEY"] else [])))

/-- The column-definition loop of `buildCreateTableSQL`, with the
per-column inline-PK flag abstracted as `f` (in the source it is
`pkCount == 1 && col.PrimaryKey`); errors on the first bad column. -/
def buildDefsWith (f : ColumnDef → Bool) : List ColumnDef → Except DbError (List String)
  | [] => .ok []
  | c :: cs =>
    match buildColumnDefinition c (f c) with
    | .error e => .error e
    | .ok d =>
      match buildDefsWith f cs with
      | .error e => .error e
      | .ok ds => .ok (d :: ds)

/-- The `pkCount` loop of `buildCreateTableSQL` (database.go:465-470). -/
def pkCount (cols : List ColumnDef) : Nat :=
  (cols.filter (fun c => c.primaryKey)).length

/-- The final statement assembly of `buildCreateTableSQL`
(database.go:486-491). -/
def createHead (ifNotExists : Bool) (name : String) (defs : List String) : String :=
  "CREATE TABLE " ++ (if ifNotExists then "IF NOT EXISTS " else "") ++
    quoteIdent name ++ " (" ++ String.intercalate ", " defs ++ ")"

/-- Embedding of `buildCreateTableSQL` (database.go:458-492); the identical
copy in the SQLite adapter is embedded by the same function. -/
def buildCreateTableSQL (name : String) (columns : List ColumnDef)
    (ifNotExists : Bool) : Except DbError String :=
  if isBlank name then .error (.validation "table name is required")
  else if columns.isEmpty then .error (.validation "at least one column is required")
  else
    match buildDefsWith (fun c => pkCount columns == 1 && c.primaryKey) columns with
    | .error e => .error e
    | .ok defs =>
      let pkCols := (columns.filter (fun c => c.primaryKey)).map
        (fun c => quoteIdent c.name)
      .ok (createHead ifNotExists name
        (if 1 < pkCols.length then
          defs ++ ["PRIMARY KEY (" ++ String.intercalate ", " pkCols ++ ")"]
        else defs))

theorem buildDefsWith_congr {f g : ColumnDef → Bool} :
    ∀ {cols : List ColumnDef}, (∀ c ∈ cols, f c = g c) →
      buildDefsWith f cols = buildDefsWith g cols
  | [], _ => rfl
  | c :: cs, h => by
    have hc : f c = g c := h c (List.mem_cons_self c cs)
    have ih := @buildDefsWith_congr f g cs (fun d hd => h d (List.mem_cons_of_mem c hd))
    simp only [buildDefsWith, hc, ih]

theorem pkCols_length (columns : List ColumnDef) :
    ((columns.filter (fun c => c.primaryKey)).map
      (fun c => quoteIdent c.name)).length = pkCount columns := by
  simp [pkCount]

/-- C4: `buildCreateTableSQL` (used by both dialects) rejects a blank table
name or an empty column list with a validation error; with two or more
primary-key columns the successful statement is the column definitions
built with inlining disallowed plus exactly one trailing
`PRIMARY KEY (cols...)` constraint listing the primary-key columns in
declaration order; with exactly one primary-key column the statement is
just the column definitions, the marked column built with inlining
allowed; and a definition built with inlining disallowed never carries the
inline `PRIMARY KEY` marker. -/
theorem createTable_validation_and_pk_layout (name : String)
    (columns : List ColumnDef) (ifNotExists : Bool) :
    (isBlank name = true →
      buildCreateTableSQL name columns ifNotExists =
        .error (.validation "table name is required")) ∧
    (isBlank name = false → columns = [] →
      buildCreateTableSQL name columns ifNotExists =
        .error (.validation "at least one column is required")) ∧
    (∀ stmt, buildCreateTableSQL name columns ifNotExists = .ok stmt →
      (2 ≤ pkCount columns →
        ∃ defs, buildDefsWith (fun _ => false) columns = .ok defs ∧
          stmt = createHead ifNotExists name
            (defs ++ ["PRIMARY KEY (" ++ String.intercalate ", "
              ((columns.filter (fun c => c.primaryKey)).map
                (fun c => quoteIdent c.name)) ++ ")"])) ∧
      (pkCount columns = 1 →
        ∃ defs, buildDefsWith (fun c => c.primaryKey) columns = .ok defs ∧
          stmt = createHead ifNotExists name defs)) ∧
    (∀ c s, buildColumnDefinition c false = .ok s →
      s = String.intercalate " "
        ([quoteIdent c.name, c.type] ++
          (if c.notNull then ["NOT NULL"] else []) ++
          (match c.default with
            | some d => ["DEFAULT " ++ d]
            | none => []))) := by
  refine ⟨fun hb => ?_, fun hb hcols => ?_, fun stmt hst => ⟨fun h2 => ?_, fun h1 => ?_⟩,
    fun c s h => ?_⟩
  · simp [buildCreateTableSQL, hb]
  · subst hcols
    simp [buildCreateTableSQL, hb]
  · by_cases hb : isBlank name
    · simp [buildCreateTableSQL, hb] at hst
    · by_cases hcols : columns.isEmpty
      · simp [buildCreateTableSQL, hb, hcols] at hst
      · have hne : pkCount columns ≠ 1 := by omega
        have hf : ∀ c ∈ columns, (pkCount columns == 1 && c.primaryKey) = false := by
          intro c _
          simp [beq_eq_false_iff_ne.mpr hne]
        rw [buildCreateTableSQL, if_neg (by simp [hb]), if_neg (by simp [hcols]),
          buildDefsWith_congr hf] at hst
        cases hdefs : buildDefsWith (fun _ => false) columns with
        | error e => rw [hdefs] at hst; cases hst
        | ok defs =>
            refine ⟨defs, rfl, ?_⟩
            rw [hdefs] at hst
            simp only [pkCols_length] at hst
            rw [if_pos (by omega)] at hst
            cases hst
            rfl
  · by_cases hb : isBlank name
    · simp [buildCreateTableSQL, hb] at hst
    · by_cases hcols : columns.isEmpty
      · simp [buildCreateTableSQL, hb, hcols] at hst
      · have hf : ∀ c ∈ columns, (pkCount columns == 1 && c.primaryKey) = c.primaryKey := by
          intro c _
          simp [h1]
        rw [buildCreateTableSQL, if_neg (by simp [hb]), if_neg (by simp [hcols]),
          buildDefsWith_congr hf] at hst
        cases hdefs : buildDefsWith (fun c => c.primaryKey) columns with
        | error e => rw [hdefs] at hst; cases hst
        | ok defs =>
            refine ⟨defs, rfl, ?_⟩
            rw [hdefs] at hst
            simp only [pkCols_length] at hst
            rw [if_neg (by omega)] at hst
            cases hst
            rfl
  · rw [buildColumnDefinition] at h
    by_cases hbc : (isBlank c.name || isBlank c.type) = true
    · rw [if_pos hbc] at h; cases h
    · rw [if_neg hbc] at h
      cases h
      simp

/-- Witness for C4 on a three-column table with a composite primary key
over `a` and `b`. -/
theorem createTable_validation_and_pk_layout_witness :
    buildCreateTableSQL "t"
        [⟨"a", "INTEGER", true, none, true⟩, ⟨"b", "TEXT", false, none, true⟩,
          ⟨"c", "TEXT", false, some "'x'", false⟩] false =
      .ok "CREATE TABLE \"t\" (\"a\" INTEGER NOT NULL, \"b\" TEXT, \"c\" TEXT DEFAULT 'x', PRIMARY KEY (\"a\", \"b\"))" ∧
    2 ≤ pkCount
        [⟨"a", "INTEGER", true, none, true⟩, ⟨"b", "TEXT", false, none, true⟩,
          ⟨"c", "TEXT", false, some "'x'", false⟩] ∧
    (∃ defs,
      buildDefsWith (fun _ => false)
          [⟨"a", "INTEGER", true, none, true⟩, ⟨"b", "TEXT", false, none, true⟩,
            ⟨"c", "TEXT", false, some "'x'", false⟩] = .ok defs ∧
      "CREATE TABLE \"t\" (\"a\" INTEGER NOT NULL, \"b\" TEXT, \"c\" TEXT DEFAULT 'x', PRIMARY KEY (\"a\", \"b\"))" =
        createHead false "t"
          (defs ++ ["PRIMARY KEY (" ++ String.intercalate ", "
            ((([⟨"a", "INTEGER", true, none, true⟩, ⟨"b", "TEXT", false, none, true⟩,
                ⟨"c", "TEXT", false, some "'x'", false⟩] : List ColumnDef).filter
              (fun c => c.primaryKey)).map (fun c => quoteIdent c.name)) ++ ")"])) :=
  ⟨rfl, by decide,
    ((createTable_validation_and_pk_layout "t"
      [⟨"a", "INTEGER", true, none, true⟩, ⟨"b", "TEXT", false, none, true⟩,
        ⟨"c", "TEXT", false, some "'x'", false⟩] false).2.2.1
      "CREATE TABLE \"t\" (\"a\" INTEGER NOT NULL, \"b\" TEXT, \"c\" TEXT DEFAULT 'x', PRIMARY KEY (\"a\", \"b\"))"
      rfl).1 (by decide)⟩

/-! ## The not-connected guard (`ensureConnected` in both adapters) -/

/-- A request handed to the `database/sql` driver: a liveness probe, a
statement execution, or a row query (with positional arguments). -/
inductive DriverReq where
  | ping : DriverReq
  | exec : String → List Value → DriverReq
  | query : String → List Value → DriverReq
  deriving DecidableEq, Repr

/-- The table-listing query of `SQLite.Tables` (sqlite.go:63). -/
def sqliteTablesSQL : String :=
  "SELECT name FROM sqlite_master WHERE type = 'table' AND name NOT LIKE 'sqlite_%' ORDER BY name"

/-- The table-listing query of `Postgres.Tables` (database.go:133). -/
def pgTablesSQL : String :=
  "SELECT tablename FROM pg_catalog.pg_tables WHERE schemaname = 'public' ORDER BY tablename"

/-- The primary-key metadata query of `Postgres.Columns`
(database.go:158-163), whitespace normalized to single spaces. -/
def pgPkQuerySQL : String :=
  "SELECT kcu.column_name, kcu.ordinal_position FROM information_schema.key_column_usage kcu JOIN information_schema.table_constraints tc ON kcu.constraint_name = tc.constraint_name WHERE kcu.table_name = $1 AND kcu.table_schema = 'public' AND tc.constraint_type = 'PRIMARY KEY'"

/-- The foreign-key metadata query of `Postgres.Columns`
(database.go:179-190), whitespace normalized to single spaces. -/
def pgFkQuerySQL : String :=
  "SELECT kcu.column_name, ccu.table_name AS foreign_table_name, ccu.column_name AS foreign_column_name, rc.update_rule, rc.delete_rule FROM information_schema.key_column_usage kcu JOIN information_schema.referential_constraints rc ON kcu.constraint_name = rc.constraint_name JOIN information_schema.constraint_column_usage ccu ON rc.constraint_name = ccu.constraint_name WHERE kcu.table_name = $1 AND kcu.table_schema = 'public'"

/-- The column metadata query of `Postgres.Columns` (database.go:210-215),
whitespace normalized to single spaces. -/
def pgColQuerySQL : String :=
  "SELECT column_name, data_type, is_nullable, column_default FROM information_schema.columns WHERE table_name = $1 AND table_schema = 'public' ORDER BY ordinal_position"

/-- The methods of the old SQLite adapter (sqlite.go), `Connect`/`Close`
excepted; this adapter generation has no DDL methods. -/
inductive SqliteMethod where
  | ping | tables | columns | rows | insert | update | delete | exec | query
  deriving DecidableEq, Repr

/-- The methods of the PostgreSQL adapter (database.go), `Connect`/`Close`
excepted, including the DDL methods. -/
inductive PgMethod where
  | ping | tables | columns | rows | insert | update | delete | exec | query
  | createTable | addColumn | dropColumn | dropTable
  deriving DecidableEq, Repr

/-- One argument record covering every method's parameters, so that a
single dispatcher can quantify over all methods. -/
structure CallArgs where
  table : String
  column : String
  pkColumn : String
  pkValue : Value
  row : RowL
  key : RowL
  limit : Int
  offset : Int
  sql : String
  args : List Value
  colDef : ColumnDef
  colDefs : List ColumnDef
  flag : Bool

/-- Lift a statement-building method result to the driver-request view. -/
def toExecReq : Except DbError (String × List Value) → Except DbError (List DriverReq)
  | .error e => .error e
  | .ok qa => .ok [.exec qa.1 qa.2]

/-- Dispatcher over the old SQLite adapter's methods: every branch mirrors
the Go method — `ensureConnected` first, then the driver requests that
method issues. -/
def sqliteCall (m : SqliteMethod) (connected : Bool) (a : CallArgs) :
    Except DbError (List DriverReq) :=
  match m with
  | .ping => if connected then .ok [.ping] else .error .notConnected
  | .tables =>
      if connected then .ok [.query sqliteTablesSQL []] else .error .notConnected
  | .columns =>
      if connected then
        .ok [.query ("PRAGMA foreign_key_list(" ++ quoteIdent a.table ++ ")") [],
          .query ("PRAGMA table_info(" ++ quoteIdent a.table ++ ")") []]
      else .error .notConnected
  | .rows =>
      if connected then
        .ok [.query (sqliteRowsQuery a.table a.limit a.offset).1
          (sqliteRowsQuery a.table a.limit a.offset).2]
      else .error .notConnected
  | .insert => toExecReq (sqliteInsert connected a.table a.row)
  | .update => toExecReq (sqliteUpdate connected a.table a.pkColumn a.pkValue a.row)
  | .delete => toExecReq (sqliteDelete connected a.table a.pkColumn a.pkValue)
  | .exec => if connected then .ok [.exec a.sql a.args] else .error .notConnected
  | .query => if connected then .ok [.query a.sql a.args] else .error .notConnected

/-- Dispatcher over the PostgreSQL adapter's methods, mirroring each Go
method (database.go): `ensureConnected` first, then validation, then the
driver requests. -/
def pgCall (m : PgMethod) (connected : Bool) (a : CallArgs) :
    Except DbError (List DriverReq) :=
  match m with
  | .ping => if connected then .ok [.ping] else .error .notConnected
  | .tables =>
      if connected then .ok [.query pgTablesSQL []] else .error .notConnected
  | .columns =>
      if connected then
        .ok [.query pgPkQuerySQL [.str a.table], .query pgFkQuerySQL [.str a.table],
          .query pgColQuerySQL [.str a.table]]
      else .error .notConnected
  | .rows =>
      if connected then
        .ok [.query (pgRowsQuery a.table a.limit a.offset).1
          (pgRowsQuery a.table a.limit a.offset).2]
      else .error .notConnected
  | .insert => toExecReq (pgInsert connected a.table a.row)
  | .update => toExecReq (pgUpdate connected a.table a.key a.row)
  | .delete => toExecReq (pgDelete connected a.table a.key)
  | .exec => if connected then .ok [.exec a.sql a.args] else .error .notConnected
  | .query => if connected then .ok [.query a.sql a.args] else .error .notConnected
  | .createTable =>
      if connected then
        match buildCreateTableSQL a.table a.colDefs a.flag with
        | .error e => .error e
        | .ok stmt => .ok [.exec stmt []]
      else .error .notConnected
  | .addColumn =>
      if connected then
        if isBlank a.table then .error (.validation "table name is required")
        else if a.colDef.primaryKey then
          .error (.validation "adding primary key columns via ALTER TABLE is not supported")
        else
          match buildColumnDefinition a.colDef false with
          | .error e => .error e
          | .ok d =>
              .ok [.exec ("ALTER TABLE " ++ quoteIdent a.table ++ " ADD COLUMN " ++ d) []]
      else .error .notConnected
  | .dropColumn =>
      if connected then
        if isBlank a.table || isBlank a.column then
          .error (.validation "table and column are required")
        else
          .ok [.exec ("ALTER TABLE " ++ quoteIdent a.table ++ " DROP COLUMN " ++
            quoteIdent a.column) []]
      else .error .notConnected
  | .dropTable =>
      if connected then
        if isBlank a.table then .error (.validation "table name is required")
        else
          .ok [.exec ("DROP TABLE " ++ (if a.flag then "IF EXISTS " else "") ++
            quoteIdent a.table) []]
      else .error .notConnected

/-- `New()` leaves the handle nil in both adapters. -/
def adapterConnectedInit : Bool := false

/-- Embedding of `Close` (identical in both adapters): nothing happens on
a nil handle, otherwise the driver close result is returned and the handle
is set to nil; either way the adapter ends disconnected. -/
def adapterClose (connected : Bool) (closeErr : Option String) :
    Bool × Option String :=
  if connected then (false, closeErr) else (false, none)

/-- Embedding of `Connect`'s effect on the handle: only a successful
connect installs it; a failed connect leaves the handle as it was. -/
def adapterConnect (connected : Bool) (success : Bool) : Bool :=
  if success then true else connected

/-- C6: a freshly created adapter is disconnected, `Close` always leaves
the adapter disconnected, a failed `Connect` does not connect it, and on a
disconnected adapter every method of either adapter (`Connect`/`Close`
apart) returns `NotConnectedError` without issuing any driver request. -/
theorem not_connected_guard :
    adapterConnectedInit = false ∧
    (∀ (connected : Bool) (closeErr : Option String),
      (adapterClose connected closeErr).1 = false) ∧
    (∀ connected : Bool, adapterConnect connected false = connected) ∧
    (∀ (m : SqliteMethod) (a : CallArgs),
      sqliteCall m false a = .error .notConnected) ∧
    (∀ (m : PgMethod) (a : CallArgs), pgCall m false a = .error .notConnected) := by
  refine ⟨rfl, fun c e => ?_, fun c => rfl, fun m a => ?_, fun m a => ?_⟩
  · cases c <;> rfl
  · cases m <;> rfl
  · cases m <;> rfl

/-! ## Connection registry (`internal/app/connections.go`) -/

/-- Registry errors: `ErrConnectionExists`, `ErrConnectionMiss`
(connections.go:16-19), and an adapter `Connect` failure passed through. -/
inductive RegistryError where
  | connectionExists : String → RegistryError
  | connectFailed : String → RegistryError
  | connectionMiss : String → RegistryError
  deriving DecidableEq, Repr

/-- Embedding of `connectionEntry` (connections.go:21-25); the adapter
handle is modelled by an abstract identity `dbId`. -/
structure ConnEntry where
  name : String
  connString : String
  dbId : Nat
  deriving DecidableEq, Repr

/-- Embedding of `ConnectionManager` (connections.go:27-31): the name-keyed
map is a key-value list (one fixed linearization of Go's unordered map)
plus the default name. `NewConnectionManager` yields `⟨[], ""⟩`. -/
structure ConnectionManager where
  connections : List (String × ConnEntry)
  defaultName : String
  deriving DecidableEq, Repr

/-- Embedding of `ConnectionInfo` (connections.go:33-37). -/
structure ConnectionInfo where
  name : String
  connString : String
  isDefault : Bool
  deriving DecidableEq, Repr

/-- Embedding of `ConnectionManager.Add` (connections.go:45-61): fail on a
registered name; otherwise build an adapter (`factory`) and connect it —
`connectErr` is the environment's outcome for that `Connect` call — and
only on success store the entry and claim the default slot if it is empty.
The fresh adapter's identity is the current entry count. -/
def ConnectionManager.add (m : ConnectionManager) (name connString : String)
    (connectErr : Option String) : ConnectionManager × Option RegistryError :=
  if (List.lookup name m.connections).isSome then
    (m, some (.connectionExists name))
  else
    match connectErr with
    | some msg => (m, some (.connectFailed msg))
    | none =>
        ({ connections := (name, ⟨name, connString, m.connections.length⟩) :: m.connections,
           defaultName := if m.defaultName = "" then name else m.defaultName },
          none)

/-- Embedding of `ConnectionManager.Get` (connections.go:63-75): an empty
name resolves to the default name; a missing resolved name fails with
`ErrConnectionMiss`. -/
def ConnectionManager.get (m : ConnectionManager) (name : String) :
    Except RegistryError ConnEntry :=
  let n := if name = "" then m.defaultName else name
  match List.lookup n m.connections with
  | some e => .ok e
  | none => .error (.connectionMiss n)

/-- Embedding of `ConnectionManager.List` (connections.go:83-97): project
every entry to `ConnectionInfo` and sort by name. -/
def ConnectionManager.list (m : ConnectionManager) : List ConnectionInfo :=
  List.insertionSort (fun x y => x.name ≤ y.name)
    (m.connections.map fun p => ⟨p.1, p.2.connString, p.1 == m.defaultName⟩)

/-- The loop of `CloseAll` (connections.go:104-108): close every entry in
iteration order, collecting the first error message and the identities of
all closed adapters; `closeErrOf` is the environment's outcome for each
adapter's `Close` call. -/
def closeLoop (closeErrOf : Nat → Option String) :
    List (String × ConnEntry) → Option String × List Nat
  | [] => (none, [])
  | (n, e) :: rest =>
      let r := closeLoop closeErrOf rest
      (match closeErrOf e.dbId with
        | some msg => some ("close " ++ n ++ ": " ++ msg)
        | none => r.1,
        e.dbId :: r.2)

/-- Embedding of `ConnectionManager.CloseAll` (connections.go:99-112):
close every adapter, then reset the map and the default name. -/
def ConnectionManager.closeAll (m : ConnectionManager)
    (closeErrOf : Nat → Option String) :
    ConnectionManager × Option String × List Nat :=
  let r := closeLoop closeErrOf m.connections
  (⟨[], ""⟩, r.1, r.2)

/-- C7: whenever `Add` returns an error — duplicate name or failed
`Connect` — the registry is left exactly as it was: same entries, same
default name. -/
theorem registry_add_error_unchanged (m : ConnectionManager)
    (name connString : String) (connectErr : Option String) :
    (m.add name connString connectErr).2.isSome →
      (m.add name connString connectErr).1 = m := by
  intro h
  simp only [ConnectionManager.add] at h ⊢
  by_cases hex : (List.lookup name m.connections).isSome
  · rw [if_pos hex]
  · rw [if_neg hex] at h ⊢
    cases connectErr with
    | some msg => rfl
    | none => simp at h

/-- Witness for C7: a duplicate `Add` on a one-entry registry errors and
leaves the registry unchanged. -/
theorem registry_add_error_unchanged_witness :
    ((ConnectionManager.mk [("a", ⟨"a", "file.db", 0⟩)] "a").add "a" "x" none).2.isSome ∧
    ((ConnectionManager.mk [("a", ⟨"a", "file.db", 0⟩)] "a").add "a" "x" none).1 =
      ConnectionManager.mk [("a", ⟨"a", "file.db", 0⟩)] "a" :=
  ⟨by decide,
    registry_add_error_unchanged (ConnectionManager.mk [("a", ⟨"a", "file.db", 0⟩)] "a")
      "a" "x" none (by decide)⟩

/-- One registry operation, with the environment's nondeterministic
outcomes (connect / close results) carried as data. -/
inductive RegOp where
  | add : String → String → Option String → RegOp
  | get : String → RegOp
  | defaultOp : RegOp
  | listOp : RegOp
  | closeAll : (Nat → Option String) → RegOp

/-- State transition of one operation: `Get`, `Default` and `List` are
read-only; `Add` and `CloseAll` update the registry as in the source. -/
def regStep (m : ConnectionManager) : RegOp → ConnectionManager
  | .add n cs e => (m.add n cs e).1
  | .get _ => m
  | .defaultOp => m
  | .listOp => m
  | .closeAll f => (m.closeAll f).1

/-- Run a sequence of operations from the fresh registry
(`NewConnectionManager`). -/
def regRun (ops : List RegOp) : ConnectionManager :=
  ops.foldl regStep ⟨[], ""⟩

/-- The registry invariant: a non-empty default name always names a
registered entry. -/
def regInvariant (m : ConnectionManager) : Prop :=
  m.defaultName ≠ "" → (List.lookup m.defaultName m.connections).isSome = true

theorem regInvariant_step (m : ConnectionManager) (op : RegOp)
    (h : regInvariant m) : regInvariant (regStep m op) := by
  cases op with
  | get _ => exact h
  | defaultOp => exact h
  | listOp => exact h
  | closeAll f => intro hd; exact absurd rfl hd
  | add n cs e =>
      simp only [regStep, ConnectionManager.add]
      by_cases hex : (List.lookup n m.connections).isSome
      · rw [if_pos hex]; exact h
      · rw [if_neg hex]
        cases e with
        | some msg => exact h
        | none =>
            intro hd
            by_cases hdef : m.defaultName = ""
            · simp only [hdef, if_pos rfl]
              exact (lookup_cons_self n _ m.connections) ▸ rfl
            · simp only [if_neg hdef]
              have hne : m.defaultName ≠ n := by
                intro hh
                exact hex (hh ▸ h hdef)
              rw [lookup_cons_ne hne]
              exact h hdef

theorem regInvariant_run : ∀ (ops : List RegOp) (m : ConnectionManager),
    regInvariant m → regInvariant (ops.foldl regStep m)
  | [], _, h => h
  | op :: ops, m, h => regInvariant_run ops _ (regInvariant_step m op h)

/-- C8: in every state reachable from a fresh registry by `Add`, `Get`,
`Default`, `List` and `CloseAll`, a non-empty default name names an
existing entry; and a successful `Add` performed while no default is set
makes the added name the default. -/
theorem registry_reachable_default_invariant :
    (∀ ops : List RegOp, regInvariant (regRun ops)) ∧
    (∀ (m : ConnectionManager) (name connString : String),
      m.defaultName = "" →
      (m.add name connString none).2 = none →
      (m.add name connString none).1.defaultName = name) := by
  constructor
  · intro ops
    exact regInvariant_run ops ⟨[], ""⟩ (fun hd => absurd rfl hd)
  · intro m name connString hdef hok
    simp only [ConnectionManager.add] at hok ⊢
    by_cases hex : (List.lookup name m.connections).isSome
    · rw [if_pos hex] at hok
      cases hok
    · rw [if_neg hex] at hok ⊢
      simp [hdef]

/-- Witness for C8: a concrete run (add two connections, close all, add
another), and a concrete first `Add` claiming the default. -/
theorem registry_reachable_default_invariant_witness :
    regInvariant (regRun
      [.add "a" ":memory:" none, .add "b" "pg" (some "refused"),
        .closeAll (fun _ => none), .add "c" ":memory:" none]) ∧
    ((ConnectionManager.mk [] "").defaultName = "" ∧
      ((ConnectionManager.mk [] "").add "only" ":memory:" none).2 = none ∧
      ((ConnectionManager.mk [] "").add "only" ":memory:" none).1.defaultName = "only") :=
  ⟨registry_reachable_default_invariant.1 _,
    ⟨rfl, rfl,
      registry_reachable_default_invariant.2 (ConnectionManager.mk [] "")
        "only" ":memory:" rfl rfl⟩⟩

theorem closeLoop_spec (f : Nat → Option String) :
    ∀ l : List (String × ConnEntry),
      (closeLoop f l).2 = l.map (fun p => p.2.dbId) ∧
      (closeLoop f l).1 = (l.map fun p => (f p.2.dbId).map
        (fun msg => "close " ++ p.1 ++ ": " ++ msg)).findSome? id
  | [] => ⟨rfl, rfl⟩
  | (n, e) :: rest => by
      have ih := closeLoop_spec f rest
      constructor
      · simp only [closeLoop, List.map_cons]
        exact congrArg _ ih.1
      · simp only [closeLoop, List.map_cons, List.findSome?_cons]
        cases f e.dbId with
        | some msg => simp
        | none => simp [ih.2]

/-- C9: `CloseAll` calls `Close` on every registered adapter in iteration
order (it does not stop at a failure), returns the first close error
encountered (`none` when all closes succeed), and resets the registry to
the empty state: no entries, `List()` empty and `Default()` the empty
string. -/
theorem registry_closeAll_resets (m : ConnectionManager)
    (f : Nat → Option String) :
    (m.closeAll f).2.2 = m.connections.map (fun p => p.2.dbId) ∧
    (m.closeAll f).2.1 =
      (m.connections.map fun p => (f p.2.dbId).map
        (fun msg => "close " ++ p.1 ++ ": " ++ msg)).findSome? id ∧
    (m.closeAll f).1 = ⟨[], ""⟩ ∧
    ((m.closeAll f).1).list = [] ∧
    ((m.closeAll f).1).defaultName = "" := by
  have h := closeLoop_spec f m.connections
  exact ⟨h.1, h.2, rfl, rfl, rfl⟩

/-- C10: registering under the empty-string name is accepted and stored
under the key `""`; `Default()` still returns `""` afterwards, `Get("")`
resolves through the (empty) default name to that entry, and a later `Add`
under a non-empty name claims the default slot. -/
theorem registry_empty_name_entry (connString connString2 name2 : String)
    (h2 : name2 ≠ "") :
    ((ConnectionManager.mk [] "").add "" connString none).2 = none ∧
    ((ConnectionManager.mk [] "").add "" connString none).1.connections =
      [("", ⟨"", connString, 0⟩)] ∧
    ((ConnectionManager.mk [] "").add "" connString none).1.defaultName = "" ∧
    (((ConnectionManager.mk [] "").add "" connString none).1.get "") =
      .ok ⟨"", connString, 0⟩ ∧
    ((((ConnectionManager.mk [] "").add "" connString none).1.add
        name2 connString2 none).1.defaultName = name2) := by
  refine ⟨rfl, rfl, rfl, rfl, ?_⟩
  have hstate : ((ConnectionManager.mk [] "").add "" connString none).1 =
      ConnectionManager.mk [("", ⟨"", connString, 0⟩)] "" := rfl
  rw [hstate]
  simp only [ConnectionManager.add]
  rw [if_neg (by rw [lookup_cons_ne h2, lookup_nil]; simp)]
  simp

/-- Witness for C10 with the later connection named `x`. -/
theorem registry_empty_name_entry_witness :
    ("x" : String) ≠ "" ∧
    (((ConnectionManager.mk [] "").add "" ":memory:" none).2 = none ∧
      ((ConnectionManager.mk [] "").add "" ":memory:" none).1.connections =
        [("", ⟨"", ":memory:", 0⟩)] ∧
      ((ConnectionManager.mk [] "").add "" ":memory:" none).1.defaultName = "" ∧
      (((ConnectionManager.mk [] "").add "" ":memory:" none).1.get "") =
        .ok ⟨"", ":memory:", 0⟩ ∧
      ((((ConnectionManager.mk [] "").add "" ":memory:" none).1.add
          "x" "pg" none).1.defaultName = "x")) :=
  ⟨by decide, registry_empty_name_entry ":memory:" "pg" "x" (by decide)⟩
